import Mathlib

/-!
Verification development for the remindRest application (`src/main.rs`).

The source is a small eframe/egui break-reminder app.  The parts relevant to
the claims are:

* `AppConfig` — the two duration settings (`work_minutes`, `rest_minutes`,
  both Rust `u64` minutes);
* `AppState` and the `RestReminderApp` struct — the timer state machine with
  its wall-clock anchor `start_time`, the countdown `time_remaining`, and the
  boolean intent flags drained once per frame by `update`;
* the operations `start_work`, `start_rest`, `pause`, `tick`;
* the duration text-field commit handlers inside `render_main`;
* the skip-rest button handler inside `render_overlay`;
* the intent-dispatch portion of `eframe::App::update`;
* the tray-listener thread spawned by `init_tray`.

Modelling conventions:

* `Instant` is modelled as a `Nat` timestamp; `Duration` as a `Nat` number of
  time units.  `Instant::elapsed()` saturates at zero on a monotonic clock, so
  it is `now - start` with truncated `Nat` subtraction.  `Duration`
  subtraction in Rust panics on underflow; where the source performs it we
  either rely on the source's own guard (`pause`, `tick`) or model the checked
  operation explicitly (`durationSub`, used for claim C5).
* `Duration::from_secs(m * 60)` is modelled as `wrapU64 (m * 60)` (the unit
  is then seconds; nothing in the claims depends on sub-second precision).
  The `m * 60` multiply happens in `u64` in the source, so it is reduced
  modulo `2^64`.
* The `EmojiDrop` particles carry `f32` screen positions and speeds that are
  pure render state; only the emoji label is kept.  The operations under
  verification only ever clear the particle list.
* OS resources held by the struct (`tray_receiver`, `_tray_icon`,
  `_tray_menu`) and the raw window handle are not data the claims quantify
  over and are omitted from the state record.
-/

namespace RemindRest

/-- Rust `enum AppState { Working, Resting, Paused }`. -/
inductive AppState
  | Working
  | Resting
  | Paused
deriving DecidableEq, Repr

/-- Rust `struct AppConfig { work_minutes: u64, rest_minutes: u64 }`. -/
structure AppConfig where
  work_minutes : Nat
  rest_minutes : Nat
deriving DecidableEq, Repr

/-- Rust `impl Default for AppConfig`: 25 work minutes, 5 rest minutes. -/
def AppConfig.default : AppConfig :=
  { work_minutes := 25, rest_minutes := 5 }

/-- A Rust `u64` arithmetic result, reduced modulo `2^64`.  The source
computes `minutes * 60` in `u64` before `Duration::from_secs`; for
`minutes ≥ 307445734561825861` that multiply overflows — it wraps in the
release profile and panics in debug.  The wrapped value is what a release
build stores; either way the mathematical product is not stored, which is
all the overflow counterexamples below rely on. -/
def wrapU64 (n : Nat) : Nat := n % 2 ^ 64

/-- Rust `struct EmojiDrop`; the `f32` fields `x`, `y`, `speed` are render-only
floating-point state and are not modelled (no claim depends on them; the
operations under verification only ever clear the list of drops). -/
structure EmojiDrop where
  emoji : String
deriving DecidableEq, Repr

/-- Rust `struct RestReminderApp`, restricted to the fields the state machine,
the input handlers and the intent dispatch read or write. -/
structure RestReminderApp where
  state : AppState
  config : AppConfig
  start_time : Option Nat
  time_remaining : Nat
  work_input : String
  rest_input : String
  drops : List EmojiDrop
  last_frame : Nat
  is_initialized : Bool
  should_fullscreen : Bool
  was_fullscreen : Bool
  is_overlay_mode : Bool
  should_minimize : Bool
  should_hide : Bool
  should_show_from_tray : Bool
  auto_start_enabled : Bool
  should_quit : Bool
deriving DecidableEq, Repr

namespace RestReminderApp

/-- Rust `RestReminderApp::new`: starts `Paused`, anchor `None`, remaining set
to the default work duration, inputs showing the default config.  `now` stands
for the `Instant::now()` stored in `last_frame`; `autoStart` for the result of
the platform call `check_auto_start()`. -/
def new (now : Nat) (autoStart : Bool) : RestReminderApp :=
  let config := AppConfig.default
  { state := AppState.Paused
    config := config
    start_time := none
    time_remaining := wrapU64 (config.work_minutes * 60)
    work_input := toString config.work_minutes
    rest_input := toString config.rest_minutes
    drops := []
    last_frame := now
    is_initialized := false
    should_fullscreen := false
    was_fullscreen := false
    is_overlay_mode := false
    should_minimize := false
    should_hide := false
    should_show_from_tray := false
    auto_start_enabled := autoStart
    should_quit := false }

/-- Rust `fn start_work(&mut self)` (main.rs:161).  `now` is `Instant::now()`. -/
def start_work (a : RestReminderApp) (now : Nat) : RestReminderApp :=
  { a with
    state := AppState.Working
    start_time := some now
    time_remaining := wrapU64 (a.config.work_minutes * 60)
    drops := []
    should_fullscreen := false
    is_overlay_mode := false }

/-- Rust `fn start_rest(&mut self)` (main.rs:170). -/
def start_rest (a : RestReminderApp) (now : Nat) : RestReminderApp :=
  { a with
    state := AppState.Resting
    start_time := some now
    time_remaining := wrapU64 (a.config.rest_minutes * 60)
    drops := []
    should_fullscreen := true
    is_overlay_mode := true
    should_hide := false }

/-- Rust `fn pause(&mut self)` (main.rs:183).  The source guards the
`Duration` subtraction: it only subtracts when `elapsed < time_remaining` and
otherwise writes `Duration::ZERO`. -/
def pause (a : RestReminderApp) (now : Nat) : RestReminderApp :=
  let a1 :=
    match a.start_time with
    | some start =>
        let elapsed := now - start
        if elapsed < a.time_remaining then
          { a with time_remaining := a.time_remaining - elapsed }
        else
          { a with time_remaining := 0 }
    | none => a
  { a1 with
    start_time := none
    state := AppState.Paused
    drops := []
    should_fullscreen := false
    is_overlay_mode := false }

/-- Rust `fn tick(&mut self)` (main.rs:199).  The single `now` parameter
stands for the `Instant::now()` calls made during one tick. -/
def tick (a : RestReminderApp) (now : Nat) : RestReminderApp :=
  match a.start_time with
  | some start =>
      let elapsed := now - start
      if a.time_remaining ≤ elapsed then
        if a.state = AppState.Working then
          a.start_rest now
        else if a.state = AppState.Resting then
          let a1 := { a with should_minimize := true }
          let a2 := a1.pause now
          { a2 with time_remaining := wrapU64 (a.config.work_minutes * 60) }
        else
          a
      else
        { a with
          time_remaining := a.time_remaining - elapsed
          start_time := some now }
  | none => a

end RestReminderApp

/-- Rust `Duration` subtraction as the checked operation it is: `a - b` when
`b ≤ a`, a panic (`none`) on underflow. -/
def durationSub (a b : Nat) : Option Nat :=
  if b ≤ a then some (a - b) else none

/-- `pause` re-expressed with the panicking `Duration` subtraction made
explicit: `none` means the Rust code would have panicked. -/
def RestReminderApp.pauseChecked (a : RestReminderApp) (now : Nat) :
    Option RestReminderApp :=
  let base :=
    match a.start_time with
    | some start =>
        let elapsed := now - start
        if elapsed < a.time_remaining then
          (durationSub a.time_remaining elapsed).map
            fun r => { a with time_remaining := r }
        else
          some { a with time_remaining := 0 }
    | none => some a
  base.map fun b =>
    { b with
      start_time := none
      state := AppState.Paused
      drops := []
      should_fullscreen := false
      is_overlay_mode := false }

/-- The elapsed time `pause`/`tick` compute from the anchor: `now - start`
when the anchor is set, `0` when it is `None`. -/
def RestReminderApp.elapsedAt (a : RestReminderApp) (now : Nat) : Nat :=
  match a.start_time with
  | some start => now - start
  | none => 0

/-- Rust `str::parse::<u64>()` on the duration inputs: an optional leading
`+` sign, then one or more ASCII digits, rejecting values that do not fit in
64 bits.  (A `-` sign is rejected for an unsigned target; any other character
fails the parse.) -/
def parseU64 (s : String) : Option Nat :=
  let cs := s.data
  let ds := match cs with
    | c :: rest => if c = '+' then rest else cs
    | [] => []
  if ds.isEmpty then none
  else if ds.all (fun c => c.isDigit) then
    let n := ds.foldl (fun acc c => acc * 10 + (c.toNat - 48)) 0
    if n < 2 ^ 64 then some n else none
  else none

/-- Rust `render_main` work-duration commit handler (main.rs:315-317): on
lost focus, `if let Ok(v) = self.work_input.parse() { self.config.work_minutes = v; }`. -/
def RestReminderApp.commitWorkInput (a : RestReminderApp) : RestReminderApp :=
  match parseU64 a.work_input with
  | some v => { a with config := { a.config with work_minutes := v } }
  | none => a

/-- Rust `render_main` rest-duration commit handler (main.rs:321-323). -/
def RestReminderApp.commitRestInput (a : RestReminderApp) : RestReminderApp :=
  match parseU64 a.rest_input with
  | some v => { a with config := { a.config with rest_minutes := v } }
  | none => a

/-- The config invariant stated by the design: both durations strictly
positive. -/
def AppConfig.Positive (c : AppConfig) : Prop :=
  0 < c.work_minutes ∧ 0 < c.rest_minutes

instance (c : AppConfig) : Decidable c.Positive := by
  unfold AppConfig.Positive; infer_instance

/-- Rust `render_overlay` skip-rest button handler (main.rs:279-286):
`should_minimize = true; pause(); time_remaining = work_minutes*60;
is_overlay_mode = false; should_fullscreen = false`. -/
def RestReminderApp.skipRest (a : RestReminderApp) (now : Nat) : RestReminderApp :=
  let a1 := { a with should_minimize := true }
  let a2 := a1.pause now
  { a2 with
    time_remaining := wrapU64 (a.config.work_minutes * 60)
    is_overlay_mode := false
    should_fullscreen := false }

/-! ### Tray bridge (`init_tray`, main.rs:524-623)

`init_tray` spawns a listener thread that polls the menu-event and
icon-event channels every 50 ms.  Each received event is handled by the
`match` blocks at main.rs:575-609, modelled by `bridgeHandleEvent` below.
The possible actions a handler could take include the two channel/flag
mechanisms the app defines (the `mpsc` `TrayMessage` channel consumed by
`process_tray_message`, and the `TRAY_SHOW_REQUEST` / `TRAY_QUIT_REQUEST`
atomics polled by `update`); the action type lists them so that theorems can
state which of them the thread actually uses. -/

/-- Rust `enum TrayMessage { MenuClick(String), IconClick }` (main.rs:51-55). -/
inductive TrayMessage
  | MenuClick (id : String)
  | IconClick
deriving DecidableEq, Repr

/-- Mouse button of a tray-icon click, from `tray_icon::MouseButton`. -/
inductive MouseButton
  | Left
  | Right
  | Middle
deriving DecidableEq, Repr

/-- One event the tray listener thread can receive in a poll iteration:
a menu click carrying its id string, an icon click or double click carrying
the button, or some other `TrayIconEvent` (the `_ => {}` arm). -/
inductive BridgeEvent
  | menu (id : String)
  | iconClick (button : MouseButton)
  | iconDoubleClick (button : MouseButton)
  | otherIconEvent
deriving DecidableEq, Repr

/-- What the tray listener thread does with one event.  `exitProcess` is
`std::process::exit`, `showWindowDirectly` the raw Win32 show/focus routine,
`emitTray` would be a send on the `TrayMessage` channel, and the two
`setTray…` actions would be stores of `true` into the process-wide atomics;
`ignore` is a no-op arm. -/
inductive BridgeAction
  | exitProcess (code : Nat)
  | showWindowDirectly
  | emitTray (msg : TrayMessage)
  | setTrayShowRequest
  | setTrayQuitRequest
  | ignore
deriving DecidableEq, Repr

/-- The tray listener thread's event handling (main.rs:575-609): menu id
`"show"` and left icon clicks/double clicks call `show_window_directly()`;
menu id `"quit"` calls `std::process::exit(0)`; everything else is ignored. -/
def bridgeHandleEvent : BridgeEvent → BridgeAction
  | BridgeEvent.menu id =>
      if id = "show" then BridgeAction.showWindowDirectly
      else if id = "quit" then BridgeAction.exitProcess 0
      else BridgeAction.ignore
  | BridgeEvent.iconClick b =>
      if b = MouseButton.Left then BridgeAction.showWindowDirectly
      else BridgeAction.ignore
  | BridgeEvent.iconDoubleClick b =>
      if b = MouseButton.Left then BridgeAction.showWindowDirectly
      else BridgeAction.ignore
  | BridgeEvent.otherIconEvent => BridgeAction.ignore

/-- Rust `fn process_tray_message` (main.rs:245-267): the would-be consumer
of the `TrayMessage` channel.  It only sets intent flags. -/
def RestReminderApp.process_tray_message (a : RestReminderApp)
    (msg : TrayMessage) : RestReminderApp :=
  match msg with
  | TrayMessage.MenuClick id =>
      if id = "show" then { a with should_show_from_tray := true }
      else if id = "quit" then { a with should_quit := true }
      else a
  | TrayMessage.IconClick => { a with should_show_from_tray := true }

/-! ### Per-frame dispatch (`eframe::App::update`, main.rs:350-517)

The dispatch is modelled up to and including the window-command section; the
subsequent `render_main`/`render_overlay` call is modelled separately (its
button handlers are the operations above).  The decorative emoji animation
(`update_emojis`, randomized floating-point motion) does not touch any field
the claims mention and is not modelled.  `ctx.request_repaint…` calls carry
no state and are omitted from the command trace; the viewport commands and
raw Win32 window calls are kept, in issue order. -/

/-- Inputs read by one `update` call: the two process-wide tray atomics, the
viewport's close-request signal, and the current instant. -/
structure FrameInput where
  trayShowReq : Bool
  trayQuitReq : Bool
  closeRequested : Bool
  now : Nat
deriving DecidableEq, Repr

/-- A window command issued during dispatch: `egui::ViewportCommand`s plus
the raw Win32 calls `update` makes alongside them. -/
inductive WindowCmd
  | cancelClose
  | visible (b : Bool)
  | minimized (b : Bool)
  | focus
  | fullscreen (b : Bool)
  | win32Hide
  | win32ShowRestore
  | win32SetForeground
deriving DecidableEq, Repr

/-- Result of one `update` call: either `std::process::exit(code)` after
having issued `cmds`, or the next state together with the issued commands and
which panel gets rendered (`overlay = is_overlay_mode`). -/
inductive UpdateResult
  | exited (code : Nat) (cmds : List WindowCmd)
  | continued (a : RestReminderApp) (cmds : List WindowCmd) (overlay : Bool)
deriving DecidableEq, Repr

/-- Rust `eframe::App::update` for `RestReminderApp` (main.rs:350-517),
dispatch portion.  Step order follows the source: quit check first
(main.rs:368-372), then draining the tray atomics, the close-to-hide
translation, `tick`, and the hide / show / minimize / fullscreen command
blocks. -/
def RestReminderApp.update (a0 : RestReminderApp) (i : FrameInput) :
    UpdateResult :=
  if a0.should_quit then
    UpdateResult.exited 0 []
  else
    let a1 := if i.trayShowReq then { a0 with should_show_from_tray := true } else a0
    let a2 := if i.trayQuitReq then { a1 with should_quit := true } else a1
    let s3 :=
      if i.closeRequested && !a2.should_quit then
        ({ a2 with should_hide := true }, [WindowCmd.cancelClose])
      else (a2, ([] : List WindowCmd))
    let a4 := s3.1.tick i.now
    let s5 :=
      if a4.should_hide then
        ({ a4 with should_hide := false },
         [WindowCmd.visible false, WindowCmd.win32Hide])
      else (a4, ([] : List WindowCmd))
    let s6 :=
      if s5.1.should_show_from_tray then
        ({ s5.1 with should_show_from_tray := false },
         [WindowCmd.minimized false, WindowCmd.visible true,
          WindowCmd.win32ShowRestore, WindowCmd.win32SetForeground,
          WindowCmd.focus, WindowCmd.focus, WindowCmd.focus])
      else (s5.1, ([] : List WindowCmd))
    let s7 :=
      if s6.1.should_minimize then
        ({ s6.1 with should_minimize := false }, [WindowCmd.minimized true])
      else (s6.1, ([] : List WindowCmd))
    let s8 :=
      if !s7.1.is_initialized then
        ({ s7.1 with is_initialized := true }, [WindowCmd.fullscreen false])
      else (s7.1, ([] : List WindowCmd))
    let s9 :=
      if s8.1.should_fullscreen ≠ s8.1.was_fullscreen then
        ({ s8.1 with was_fullscreen := s8.1.should_fullscreen },
         WindowCmd.fullscreen s8.1.should_fullscreen ::
           (if s8.1.should_fullscreen then [WindowCmd.focus] else []))
      else (s8.1, ([] : List WindowCmd))
    UpdateResult.continued s9.1
      (s3.2 ++ s5.2 ++ s6.2 ++ s7.2 ++ s8.2 ++ s9.2)
      s9.1.is_overlay_mode

/-- The anchor/state invariant: the anchor is set exactly when not Paused. -/
def RestReminderApp.AnchorInv (a : RestReminderApp) : Prop :=
  a.start_time.isSome = true ↔ a.state ≠ AppState.Paused

instance (a : RestReminderApp) : Decidable a.AnchorInv := by
  unfold RestReminderApp.AnchorInv; infer_instance

/-- A state whose rest duration is 307445734561825861 minutes — the smallest
value whose seconds conversion `minutes * 60` overflows `u64`, and one the
duration text field accepts and stores — with the work phase running from
instant 0. -/
def overflowRestApp : RestReminderApp :=
  { RestReminderApp.new 0 false with
    config := { work_minutes := 25, rest_minutes := 307445734561825861 }
    state := AppState.Working
    start_time := some 0 }

/-- Like `overflowRestApp` with the oversized duration in the work slot: work
duration 307445734561825861 minutes, rest phase running from instant 0 with
its full 300 seconds remaining. -/
def overflowWorkApp : RestReminderApp :=
  { RestReminderApp.new 0 false with
    config := { work_minutes := 307445734561825861, rest_minutes := 5 }
    state := AppState.Resting
    start_time := some 0
    time_remaining := 300
    should_fullscreen := true
    is_overlay_mode := true }

/-! ## Claims -/

/-- Counterexample for C3: with the rest duration 307445734561825861 minutes
— a value the duration text field accepts and stores (first conjunct) — the
work phase expiring under `tick` does enter `Resting`, but with
`time_remaining = 44` seconds (the wrapped `u64` product
`307445734561825861 * 60 mod 2^64`), not `rest_minutes * 60` seconds as the
claim states. -/
theorem C3_overflow_counterexample :
    ({ RestReminderApp.new 0 false with
        rest_input := "307445734561825861" }).commitRestInput.config.rest_minutes =
      307445734561825861 ∧
    (overflowRestApp.tick 1500).state = AppState.Resting ∧
    (overflowRestApp.tick 1500).time_remaining = 44 ∧
    (overflowRestApp.tick 1500).time_remaining ≠
      overflowRestApp.config.rest_minutes * 60 := by
  decide

/-- Claim C3 (amended): with the anchor set and state `Working`, a `tick`
whose elapsed time (`now - s`) has reached `time_remaining` transitions to
`Resting` with `time_remaining = (rest_minutes * 60) mod 2^64` — the stored
`u64` product, equal to `rest_minutes` in seconds whenever that product fits
in 64 bits — and the fullscreen/overlay intent set to true. -/
theorem C3_tick_work_expiry_wrapped (a : RestReminderApp) (now s : Nat)
    (hstate : a.state = AppState.Working)
    (hanchor : a.start_time = some s)
    (hexp : a.time_remaining ≤ now - s) :
    (a.tick now).state = AppState.Resting ∧
    (a.tick now).time_remaining = wrapU64 (a.config.rest_minutes * 60) ∧
    (a.tick now).should_fullscreen = true ∧
    (a.tick now).is_overlay_mode = true := by
  simp [RestReminderApp.tick, RestReminderApp.start_rest, hanchor, hexp, hstate]

/-- Witness for C3: the default app after `start_work` at time 0, ticked at
time 1500 (the full 25-minute work phase elapsed). -/
theorem C3_tick_work_expiry_wrapped_witness :
    ((((RemindRest.RestReminderApp.new 0 false).start_work 0).tick 1500).state =
        AppState.Resting ∧
      (((RestReminderApp.new 0 false).start_work 0).tick 1500).time_remaining =
        wrapU64 (((RestReminderApp.new 0 false).start_work 0).config.rest_minutes * 60) ∧
      (((RestReminderApp.new 0 false).start_work 0).tick 1500).should_fullscreen = true ∧
      (((RestReminderApp.new 0 false).start_work 0).tick 1500).is_overlay_mode = true) :=
  C3_tick_work_expiry_wrapped ((RestReminderApp.new 0 false).start_work 0) 1500 0
    rfl rfl (by decide)

/-- Counterexample for C4: with the work duration 307445734561825861 minutes
— a value the duration text field accepts and stores (first conjunct) — the
rest phase expiring under `tick` does enter `Paused` with the minimize intent
set, but with `time_remaining = 44` seconds (the wrapped `u64` product), not
`work_minutes * 60` seconds as the claim states. -/
theorem C4_overflow_counterexample :
    ({ RestReminderApp.new 0 false with
        work_input := "307445734561825861" }).commitWorkInput.config.work_minutes =
      307445734561825861 ∧
    (overflowWorkApp.tick 300).state = AppState.Paused ∧
    (overflowWorkApp.tick 300).should_minimize = true ∧
    (overflowWorkApp.tick 300).time_remaining = 44 ∧
    (overflowWorkApp.tick 300).time_remaining ≠
      overflowWorkApp.config.work_minutes * 60 := by
  decide

/-- Claim C4 (amended): with the anchor set and state `Resting`, a `tick`
whose elapsed time has reached `time_remaining` transitions to `Paused` with
`time_remaining = (work_minutes * 60) mod 2^64` — the stored `u64` product,
equal to `work_minutes` in seconds whenever that product fits in 64 bits —
the minimize intent true, and the fullscreen/overlay intent false. -/
theorem C4_tick_rest_expiry_wrapped (a : RestReminderApp) (now s : Nat)
    (hstate : a.state = AppState.Resting)
    (hanchor : a.start_time = some s)
    (hexp : a.time_remaining ≤ now - s) :
    (a.tick now).state = AppState.Paused ∧
    (a.tick now).time_remaining = wrapU64 (a.config.work_minutes * 60) ∧
    (a.tick now).should_minimize = true ∧
    (a.tick now).should_fullscreen = false ∧
    (a.tick now).is_overlay_mode = false := by
  have hnl : ¬ (now - s < a.time_remaining) := Nat.not_lt.mpr hexp
  simp [RestReminderApp.tick, RestReminderApp.pause, hanchor, hexp, hstate, hnl]

/-- Witness for C4: the default app after `start_rest` at time 0, ticked at
time 300 (the full 5-minute rest phase elapsed). -/
theorem C4_tick_rest_expiry_wrapped_witness :
    ((((RemindRest.RestReminderApp.new 0 false).start_rest 0).tick 300).state =
        AppState.Paused ∧
      (((RestReminderApp.new 0 false).start_rest 0).tick 300).time_remaining =
        wrapU64 (((RestReminderApp.new 0 false).start_rest 0).config.work_minutes * 60) ∧
      (((RestReminderApp.new 0 false).start_rest 0).tick 300).should_minimize = true ∧
      (((RestReminderApp.new 0 false).start_rest 0).tick 300).should_fullscreen = false ∧
      (((RestReminderApp.new 0 false).start_rest 0).tick 300).is_overlay_mode = false) :=
  C4_tick_rest_expiry_wrapped ((RestReminderApp.new 0 false).start_rest 0) 300 0
    rfl rfl (by decide)

/-- Claim C5: `pause` never produces a negative remaining.  The checked
variant (`pauseChecked`, in which the panicking `Duration` subtraction is
explicit) never hits the underflow branch and agrees with `pause`, and the
resulting remaining is exactly the truncated (floored-at-zero) difference
`time_remaining - elapsed`. -/
theorem C5_pause_no_underflow (a : RestReminderApp) (now : Nat) :
    a.pauseChecked now = some (a.pause now) ∧
    (a.pause now).time_remaining = a.time_remaining - a.elapsedAt now := by
  cases h : a.start_time with
  | none =>
      simp [RestReminderApp.pauseChecked, RestReminderApp.pause,
        RestReminderApp.elapsedAt, h]
  | some s =>
      by_cases hlt : now - s < a.time_remaining
      · simp [RestReminderApp.pauseChecked, RestReminderApp.pause,
          RestReminderApp.elapsedAt, durationSub, h, hlt, Nat.le_of_lt hlt]
      · simp [RestReminderApp.pauseChecked, RestReminderApp.pause,
          RestReminderApp.elapsedAt, h, hlt]
        omega

/-- Claim C7: the invariant `anchor.is_some() ↔ state ≠ Paused` holds in the
initial state produced by `new` and is preserved by `start_work`,
`start_rest`, `pause` and `tick`. -/
theorem C7_anchor_invariant :
    (∀ t b, (RestReminderApp.new t b).AnchorInv) ∧
    ∀ (a : RestReminderApp) (now : Nat), a.AnchorInv →
      (a.start_work now).AnchorInv ∧ (a.start_rest now).AnchorInv ∧
      (a.pause now).AnchorInv ∧ (a.tick now).AnchorInv := by
  constructor
  · intro t b
    simp [RestReminderApp.AnchorInv, RestReminderApp.new]
  · intro a now h
    refine ⟨?_, ?_, ?_, ?_⟩
    · simp [RestReminderApp.AnchorInv, RestReminderApp.start_work]
    · simp [RestReminderApp.AnchorInv, RestReminderApp.start_rest]
    · simp [RestReminderApp.AnchorInv, RestReminderApp.pause]
    · cases h1 : a.start_time with
      | none =>
          have : a.tick now = a := by simp [RestReminderApp.tick, h1]
          rw [this]; exact h
      | some s =>
          simp only [RestReminderApp.tick, h1]
          split_ifs with h2 h3 h4
          · simp [RestReminderApp.AnchorInv, RestReminderApp.start_rest]
          · simp [RestReminderApp.AnchorInv, RestReminderApp.pause]
          · exact h
          · simp only [RestReminderApp.AnchorInv, Option.isSome_some, true_iff]
            exact h.mp (by simp [h1])

/-- Witness for C7: the invariant, discharged on the freshly constructed app,
is preserved by `start_work`. -/
theorem C7_anchor_invariant_witness :
    ((RestReminderApp.new 0 false).start_work 3).AnchorInv :=
  (C7_anchor_invariant.2 (RestReminderApp.new 0 false) 3 (by decide)).1

/-- Claim C8: when the anchor is `None` (Paused), `tick` is a no-op: the
whole state record — state, remaining, anchor and every intent flag — is
unchanged. -/
theorem C8_tick_noop_when_paused (a : RestReminderApp) (now : Nat)
    (h : a.start_time = none) :
    a.tick now = a := by
  simp [RestReminderApp.tick, h]

/-- Witness for C8: ticking the freshly constructed (Paused) app changes
nothing. -/
theorem C8_tick_noop_when_paused_witness :
    (RestReminderApp.new 0 false).tick 7 = RestReminderApp.new 0 false :=
  C8_tick_noop_when_paused (RestReminderApp.new 0 false) 7 rfl

/-- Counterexample for C9: with the work duration 307445734561825861 minutes
— a value the duration text field accepts and stores (first conjunct) — the
skip-rest handler still mirrors the `tick` expiry path exactly, but both
leave `time_remaining = 44` seconds (the wrapped `u64` product), not
`work_minutes * 60` seconds as the claim states. -/
theorem C9_overflow_counterexample :
    ({ RestReminderApp.new 0 false with
        work_input := "307445734561825861" }).commitWorkInput.config.work_minutes =
      307445734561825861 ∧
    (overflowWorkApp.skipRest 300).state = AppState.Paused ∧
    (overflowWorkApp.skipRest 300).time_remaining = 44 ∧
    (overflowWorkApp.skipRest 300).time_remaining ≠
      overflowWorkApp.config.work_minutes * 60 := by
  decide

/-- Claim C9 (amended): the overlay's skip-rest button handler performs the
same transition as rest-phase expiry inside `tick` — on a `Resting` state
whose rest phase has elapsed the two paths produce identical states, and the
skip-rest result is `Paused` with `time_remaining = (work_minutes * 60) mod
2^64` (the stored `u64` product, equal to `work_minutes` in seconds whenever
that product fits in 64 bits), the minimize intent true and the
fullscreen/overlay intents false. -/
theorem C9_skip_rest_matches_tick_wrapped (a : RestReminderApp) (now s : Nat)
    (hstate : a.state = AppState.Resting)
    (hanchor : a.start_time = some s)
    (hexp : a.time_remaining ≤ now - s) :
    a.tick now = a.skipRest now ∧
    (a.skipRest now).state = AppState.Paused ∧
    (a.skipRest now).time_remaining = wrapU64 (a.config.work_minutes * 60) ∧
    (a.skipRest now).should_minimize = true ∧
    (a.skipRest now).should_fullscreen = false ∧
    (a.skipRest now).is_overlay_mode = false := by
  have hnl : ¬ (now - s < a.time_remaining) := Nat.not_lt.mpr hexp
  constructor
  · simp [RestReminderApp.tick, RestReminderApp.skipRest, RestReminderApp.pause,
      hanchor, hexp, hstate, hnl]
  · simp [RestReminderApp.skipRest, RestReminderApp.pause, hanchor, hnl]

/-- Witness for C9: the default app after `start_rest` at time 0, with the
skip button pressed (respectively `tick` run) at time 300. -/
theorem C9_skip_rest_matches_tick_wrapped_witness :
    (((RemindRest.RestReminderApp.new 0 false).start_rest 0).tick 300 =
        ((RestReminderApp.new 0 false).start_rest 0).skipRest 300 ∧
      (((RestReminderApp.new 0 false).start_rest 0).skipRest 300).state =
        AppState.Paused ∧
      (((RestReminderApp.new 0 false).start_rest 0).skipRest 300).time_remaining =
        wrapU64 (((RestReminderApp.new 0 false).start_rest 0).config.work_minutes * 60) ∧
      (((RestReminderApp.new 0 false).start_rest 0).skipRest 300).should_minimize = true ∧
      (((RestReminderApp.new 0 false).start_rest 0).skipRest 300).should_fullscreen = false ∧
      (((RestReminderApp.new 0 false).start_rest 0).skipRest 300).is_overlay_mode = false) :=
  C9_skip_rest_matches_tick_wrapped ((RestReminderApp.new 0 false).start_rest 0) 300 0
    rfl rfl (by decide)

/-- Claim C10: `pause` is idempotent — a second `pause`, at any later (or
other) instant, returns exactly the state of the first, because the second
call finds the anchor `None` and subtracts nothing. -/
theorem C10_pause_idempotent (a : RestReminderApp) (now now2 : Nat) :
    (a.pause now).pause now2 = a.pause now := by
  cases a
  simp only [RestReminderApp.pause]

/-- Claim C1 (code-bug evaluation): on the default config (which satisfies
the positivity invariant), committing the work-duration text field containing
`"0"` stores `work_minutes = 0` — `parse::<u64>()` accepts `"0"` and the
handler stores it unvalidated — breaking the invariant, while a non-numeric
commit (`"abc"`) is indeed a no-op. -/
theorem C1_zero_duration_stored :
    AppConfig.Positive (RestReminderApp.new 0 false).config ∧
    ({ RestReminderApp.new 0 false with
        work_input := "0" }).commitWorkInput.config.work_minutes = 0 ∧
    ¬ AppConfig.Positive
      ({ RestReminderApp.new 0 false with work_input := "0" }).commitWorkInput.config ∧
    ({ RestReminderApp.new 0 false with work_input := "abc" }).commitWorkInput =
      { RestReminderApp.new 0 false with work_input := "abc" } := by
  refine ⟨by decide, by decide, by decide, by decide⟩

/-- Counterexample for C2: the tray listener thread handles a `"quit"` menu
click by calling `std::process::exit(0)` itself; it does not emit a
`TrayMessage` on the channel for the main loop to act on. -/
theorem C2_quit_not_emitted :
    bridgeHandleEvent (BridgeEvent.menu "quit") = BridgeAction.exitProcess 0 ∧
    bridgeHandleEvent (BridgeEvent.menu "quit") ≠
      BridgeAction.emitTray (TrayMessage.MenuClick "quit") := by
  refine ⟨by decide, by decide⟩

/-- Claim C2 (amended): the tray listener thread terminates the process
directly on a `"quit"` menu click and shows the window directly (raw Win32
calls) on a `"show"` menu click or an icon left-click/double-click; it never
sends on the `TrayMessage` channel and never sets the `TRAY_SHOW_REQUEST` /
`TRAY_QUIT_REQUEST` atomics, so it reaches around the channel/flag mechanisms
rather than communicating through them. -/
theorem C2_bridge_acts_directly :
    bridgeHandleEvent (BridgeEvent.menu "quit") = BridgeAction.exitProcess 0 ∧
    bridgeHandleEvent (BridgeEvent.menu "show") = BridgeAction.showWindowDirectly ∧
    bridgeHandleEvent (BridgeEvent.iconClick MouseButton.Left) =
      BridgeAction.showWindowDirectly ∧
    bridgeHandleEvent (BridgeEvent.iconDoubleClick MouseButton.Left) =
      BridgeAction.showWindowDirectly ∧
    ∀ e : BridgeEvent,
      (∀ m : TrayMessage, bridgeHandleEvent e ≠ BridgeAction.emitTray m) ∧
      bridgeHandleEvent e ≠ BridgeAction.setTrayShowRequest ∧
      bridgeHandleEvent e ≠ BridgeAction.setTrayQuitRequest := by
  refine ⟨by decide, by decide, rfl, rfl, ?_⟩
  intro e
  cases e with
  | menu id => simp only [bridgeHandleEvent]; split_ifs <;> simp
  | iconClick b => simp only [bridgeHandleEvent]; split_ifs <;> simp
  | iconDoubleClick b => simp only [bridgeHandleEvent]; split_ifs <;> simp
  | otherIconEvent => simp [bridgeHandleEvent]

/-- Claim C6: if the quit intent (and, in particular, also the show intent)
is set when `update` begins a cycle, the process exits with code 0 having
issued no window command at all — the quit branch runs first and performs no
further processing. -/
theorem C6_quit_priority (a : RestReminderApp) (i : FrameInput)
    (hq : a.should_quit = true)
    (_hs : a.should_show_from_tray = true) :
    a.update i = UpdateResult.exited 0 [] := by
  simp [RestReminderApp.update, hq]

/-- Witness for C6: the fresh app with both the quit and show intents set,
updated on an arbitrary quiet frame. -/
theorem C6_quit_priority_witness :
    ({ RestReminderApp.new 0 false with
        should_quit := true
        should_show_from_tray := true }).update
      { trayShowReq := false, trayQuitReq := false,
        closeRequested := false, now := 0 } = UpdateResult.exited 0 [] :=
  C6_quit_priority
    { RestReminderApp.new 0 false with
        should_quit := true
        should_show_from_tray := true }
    { trayShowReq := false, trayQuitReq := false,
      closeRequested := false, now := 0 }
    rfl rfl

end RemindRest
